import Mathlib

/-!
Verification of the flipsidecrypto SDK client (`src/flipside.rs`,
`src/rpc.rs`, `src/defaults.rs`) via a shallow embedding.

Modelling conventions:
* Rust `Duration` values are natural numbers of milliseconds.
* `HashMap K V` fields are `List (K × V)`.
* The RPC transport is an oracle supplied to the embedded functions:
  `create` maps the submitted parameter record to the created run (or a
  transport error), and `polls` maps the index of a `get_query_run` call
  to its response (or a transport error).  `Except Unit` stands for
  `Result<_, ClientError>`, the error payload being irrelevant here.
* Wall-clock time: network round trips take zero model time, so the
  clock advances exactly by the sleeps the poll loop performs; the
  elapsed duration measured by `Instant::now()/elapsed()` is the sum of
  the sleep durations performed so far.
* The poll loop of `Flipside::run` is embedded with explicit fuel
  (`none` = fuel exhausted); every theorem about a completed run is
  about a `some` result, which the real (unbounded) loop reaches.
* A Rust `panic` (from `Option::unwrap` on `None` and from the
  `api_key.parse().unwrap()` in `Flipside::new`) is a distinguished
  outcome constructor, never a silent default.
-/

/-! ## defaults.rs -/

def API_BASE_URL : String := "https://api-v2.flipsidecrypto.xyz/json-rpc"

def TTL_MINUTES : Nat := 60

def MAX_AGE_MINUTES : Nat := 0

def CACHED : Bool := true

def DATA_PROVIDER : String := "flipside"

def DATA_SOURCE : String := "snowflake-default"

/-- `Duration::from_secs(20 * 60)` in milliseconds. -/
def TIMEOUT : Nat := 20 * 60 * 1000

/-- `Duration::from_millis(500)`. -/
def RETRY_INTERVAL : Nat := 500

def PAGE_SIZE : Nat := 100000

def PAGE_NUMBER : Nat := 1

/-! ## rpc.rs data model -/

inductive QueryState where
  | QueryStateReady
  | QueryStateRunning
  | QueryStateSuccess
  | QueryStateFailed
  | QueryStateStreamingResults
  | QueryStateCancelled
deriving DecidableEq, Repr

inductive FileNames where
  | Single (s : String)
  | Multiple (v : List String)
deriving DecidableEq, Repr

structure QueryRun where
  id : String
  sql_statement_id : String
  state : QueryState
  path : String
  file_count : Option Nat
  last_file_number : Option Nat
  file_names : Option FileNames
  error_name : Option String
  error_message : Option String
  error_data : Option String
  external_query_id : Option String
  data_source_query_id : Option String
  data_source_session_id : Option String
  started_at : Option String
  query_running_ended_at : Option String
  query_streaming_ended_at : Option String
  ended_at : Option String
  row_count : Option Nat
  total_size : Option String
  tags : List (String × Option String)
  data_source_id : String
  user_id : String
  created_at : String
  updated_at : String
  archived_at : Option String
  rows_per_result_set : Nat
  statement_timeout_seconds : Nat
  abort_detached_query : Bool
deriving DecidableEq, Repr

structure SortBy where
  column : String
  direction : String
deriving DecidableEq, Repr

inductive FilterKey where
  | Column
  | Eq
  | Neq
  | Gt
  | Gte
  | Lt
  | Lte
  | Like
  | In
  | NotIn
deriving DecidableEq, Repr

structure Pagination where
  number : Nat
  size : Nat
deriving DecidableEq, Repr

inductive QueryFormat where
  | Json
  | Csv
deriving DecidableEq, Repr

/-- Response record of the `getQueryRun` RPC method. -/
structure GetQueryRunResult where
  query_run : QueryRun
  redirected_to_query_run : Option QueryRun
deriving DecidableEq, Repr

/-- Parameter record of the `createQueryRun` RPC method
(`CreateQueryRunParams` in `rpc.rs`). -/
structure CreateQueryRunParams where
  result_ttl_hours : Nat
  max_age_minutes : Nat
  sql : String
  tags : List (String × Option String)
  data_source : String
  data_provider : String
deriving DecidableEq, Repr

/-- One filter entry: a `HashMap<FilterKey, String>` from the source,
modelled as an association list. -/
def FilterMap : Type := List (FilterKey × String)

instance : DecidableEq FilterMap :=
  inferInstanceAs (DecidableEq (List (FilterKey × String)))

/-- Parameter record of the `getQueryRunResults` RPC method, as
assembled at the call site in `Flipside::get_query_results`
(`flipside.rs` lines 182-192): the sort/filter lists and the page are
passed wrapped in `Some`. -/
structure GetQueryRunResultsParams where
  query_run_id : String
  format : QueryFormat
  sort_by : Option (List SortBy)
  filters : Option (List FilterMap)
  page : Option Pagination
deriving DecidableEq

/-! ## flipside.rs data model -/

structure Query where
  sql : String
  max_age_minutes : Option Nat
  cached : Option Bool
  timeout : Option Nat
  retry_interval_seconds : Option Nat
  data_source : Option String
  data_provider : Option String
deriving DecidableEq, Repr

structure ExecutionError where
  name : String
  message : String
  data : String
deriving DecidableEq, Repr

/-! ## Pure helpers of `Flipside` (flipside.rs lines 57-81) -/

/-- `Flipside::get_timeout`: `query.timeout.unwrap_or(TIMEOUT)`. -/
def get_timeout (query : Query) : Nat :=
  query.timeout.getD TIMEOUT

/-- `Flipside::get_retry_interval_seconds`:
`query.retry_interval_seconds.unwrap_or(RETRY_INTERVAL)`. -/
def get_retry_interval_seconds (query : Query) : Nat :=
  query.retry_interval_seconds.getD RETRY_INTERVAL

/-- `Flipside::get_max_age_minutes` (flipside.rs lines 65-71): zero
when `cached == Some(false)`, else the supplied value or the default. -/
def get_max_age_minutes (query : Query) : Nat :=
  if query.cached = some false then 0
  else query.max_age_minutes.getD MAX_AGE_MINUTES

/-- `Flipside::get_ttl_hours` (flipside.rs lines 73-81):
`(if max_age_minutes > 60 then max_age_minutes else TTL_MINUTES) / 60`. -/
def get_ttl_hours (query : Query) : Nat :=
  let max_age_minutes := get_max_age_minutes query
  (if max_age_minutes > 60 then max_age_minutes else TTL_MINUTES) / 60

/-- The `create_query_run` parameter record submitted by both
`Flipside::run` (flipside.rs lines 89-98) and
`Flipside::create_query_run` (lines 143-153): computed ttl and max-age,
the query's SQL, an empty tag map, and the data source/provider with
their defaults. -/
def run_create_params (query : Query) : CreateQueryRunParams where
  result_ttl_hours := get_ttl_hours query
  max_age_minutes := get_max_age_minutes query
  sql := query.sql
  tags := []
  data_source := query.data_source.getD DATA_SOURCE
  data_provider := query.data_provider.getD DATA_PROVIDER

/-- The run a `getQueryRun` response resolves to:
`res.redirected_to_query_run.unwrap_or(res.query_run)`, as performed at
flipside.rs lines 115, 160 and 180. -/
def resolve_redirect (res : GetQueryRunResult) : QueryRun :=
  res.redirected_to_query_run.getD res.query_run

/-! ## The `Flipside::run` poll loop (flipside.rs lines 83-141) -/

/-- What a `run()` invocation observably did: the ids passed to
`get_query_run`, the sleep durations performed (in order), and the ids
passed to `cancel_query_run` (the loop never issues one). -/
structure RunTrace where
  pollIds : List String
  sleeps : List Nat
  cancels : List String
deriving DecidableEq, Repr

/-- Outcome of `run()`: `Ok(query_run)`, or one of the
`QueryRunError` variants, or a Rust panic (an `unwrap` of `None`). -/
inductive RunOutcome where
  | ok (query_run : QueryRun)
  | rpcError
  | timeout (elapsed : Nat)
  | executionError (e : ExecutionError)
  | panicked
deriving DecidableEq, Repr

/-- The `loop` of `Flipside::run` (flipside.rs lines 108-138).

Arguments mirror the loop's live state: `polls i` is the transport's
response to the `(i+1)`-th `get_query_run` call; `query_run_id` is the
poll target fixed at line 103 (the loop never reassigns it);
`retry_interval` and `timeout` are the effective durations;
`retry_duration` is the current sleep length (starts at
`retry_interval`, line 105); `elapsed` is the wall-clock time since
`start` (line 106), which in this model advances only during sleeps.

Each iteration: call `get_query_run` (a transport error aborts with
`RpcError`); resolve the redirect; on `Success` return the resolved
run; on `Failed`/`Cancelled` return `ExecutionError` from the run's
error fields (`unwrap` panics if any is absent); otherwise sleep
`retry_duration`, add one `retry_interval`, and abort with
`Timeout(elapsed)` when the elapsed time exceeds `timeout`.  `fuel`
bounds the number of iterations (`none` = exhausted). -/
def runLoop (polls : Nat → Except Unit GetQueryRunResult) (query_run_id : String)
    (retry_interval timeout : Nat) :
    Nat → Nat → Nat → Nat → Option (RunOutcome × RunTrace)
  | 0, _, _, _ => none
  | fuel + 1, i, retry_duration, elapsed =>
    match polls i with
    | .error _ => some (.rpcError, ⟨[query_run_id], [], []⟩)
    | .ok res =>
      let query_run := resolve_redirect res
      match query_run.state with
      | .QueryStateSuccess => some (.ok query_run, ⟨[query_run_id], [], []⟩)
      | .QueryStateFailed | .QueryStateCancelled =>
        match query_run.error_name, query_run.error_message, query_run.error_data with
        | some n, some m, some d =>
          some (.executionError ⟨n, m, d⟩, ⟨[query_run_id], [], []⟩)
        | _, _, _ => some (.panicked, ⟨[query_run_id], [], []⟩)
      | _ =>
        let elapsed2 := elapsed + retry_duration
        if elapsed2 > timeout then
          some (.timeout elapsed2, ⟨[query_run_id], [retry_duration], []⟩)
        else
          match runLoop polls query_run_id retry_interval timeout fuel (i + 1)
              (retry_duration + retry_interval) elapsed2 with
          | none => none
          | some (out, tr) =>
            some (out, ⟨query_run_id :: tr.pollIds, retry_duration :: tr.sleeps, tr.cancels⟩)

/-- `Flipside::run` (flipside.rs lines 83-141): compute the effective
parameters, submit via `create_query_run` (a transport error aborts
with `RpcError`), then poll the created run's id in `runLoop`, starting
with `retry_duration = retry_interval` and the clock at zero. -/
def run (create : CreateQueryRunParams → Except Unit QueryRun)
    (polls : Nat → Except Unit GetQueryRunResult) (query : Query) (fuel : Nat) :
    Option (RunOutcome × RunTrace) :=
  let retry_interval := get_retry_interval_seconds query
  let timeout := get_timeout query
  match create (run_create_params query) with
  | .error _ => some (.rpcError, ⟨[], [], []⟩)
  | .ok query_run =>
    runLoop polls query_run.id retry_interval timeout fuel 0 retry_interval 0

/-! ## `Flipside::get_query_results` (flipside.rs lines 171-194) -/

/-- An RPC call issued by `get_query_results`, in order. -/
inductive RpcCall where
  | getQueryRun (query_run_id : String)
  | getQueryRunResults (params : GetQueryRunResultsParams)
deriving DecidableEq

/-- `Flipside::get_query_results`: first `get_query_run(query_run_id)`;
resolve the redirect; then `get_query_run_results` against the resolved
run's id, CSV format, the supplied sort/filter lists, and the supplied
page or the default `Pagination { number: 1, size: 100000 }`.  Returns
the sequence of RPC calls issued (a transport error on the first call
aborts before the second). -/
def get_query_results (runResp : Except Unit GetQueryRunResult)
    (query_run_id : String) (page : Option Pagination)
    (filters : List FilterMap) (sort_by : List SortBy) : List RpcCall :=
  match runResp with
  | .error _ => [.getQueryRun query_run_id]
  | .ok res =>
    let query_run := resolve_redirect res
    [.getQueryRun query_run_id,
     .getQueryRunResults
       ⟨query_run.id, .Csv, some sort_by, some filters,
        some (page.getD ⟨1, 100000⟩)⟩]

/-! ## `Flipside::new` (flipside.rs lines 46-55) -/

/-- Outcome of `Flipside::new`: the `Ok` client (its header list and
base URL), a returned `ClientError`, or a panic. -/
inductive NewOutcome where
  | ok (headers : List (String × String)) (url : String)
  | err
  | panicked
deriving DecidableEq, Repr

/-- `Flipside::new`: insert `x-api-key: api_key.parse().unwrap()` into
the header map — the `unwrap` panics when the key is not a valid header
value — then build the client against `base_url.unwrap_or(API_BASE_URL)`,
where the builder's `?` surfaces an unparsable URL as the `Err`
outcome.  The two external parsers (`HeaderValue::from_str` inside
`parse`, and the URL parse inside `HttpClientBuilder::build`) are
oracles: `parse_header_value` and `parse_url` return `none` exactly on
the inputs the real parsers reject. -/
def new (parse_header_value : String → Option String)
    (parse_url : String → Option String)
    (api_key : String) (base_url : Option String) : NewOutcome :=
  match parse_header_value api_key with
  | none => .panicked
  | some v =>
    match parse_url (base_url.getD API_BASE_URL) with
    | none => .err
    | some u => .ok [("x-api-key", v)] u

/-! ## Specification-side helpers and concrete inputs -/

/-- The states on which the poll loop continues — the `_` arm of the
`match` at flipside.rs line 128 (Ready, Running, StreamingResults). -/
def nonTerminalState (s : QueryState) : Prop :=
  s = .QueryStateReady ∨ s = .QueryStateRunning ∨ s = .QueryStateStreamingResults

instance (s : QueryState) : Decidable (nonTerminalState s) := by
  unfold nonTerminalState
  infer_instance

/-- Total sleep time of the first `k` iterations of the poll loop with
base interval `interval`: the sum of `1*interval, ..., k*interval`. -/
def partialSleepSum (interval k : Nat) : Nat :=
  ((List.range k).map (fun j => (j + 1) * interval)).sum

/-- A query with an explicit `max_age_minutes` of 61 and no other
overrides. -/
def sixtyOneQuery : Query :=
  ⟨"select 1", some 61, none, none, none, none, none⟩

/-- A plain query with no overrides at all. -/
def plainQuery : Query :=
  ⟨"select 1", none, none, none, none, none, none⟩

/-- A query with a 1 ms retry interval and a 1 ms timeout. -/
def tinyTimeoutQuery : Query :=
  ⟨"select 1", none, none, some 1, some 1, none, none⟩

/-- A concrete non-terminal query run used as a template for test
inputs. -/
def baseRun : QueryRun :=
  ⟨"run-a", "stmt-1", .QueryStateRunning, "s3://results/run-a", none, none, none,
   none, none, none, none, none, none, none, none, none, none, none, none, [],
   "ds-1", "user-1", "2024-01-01T00:00:00Z", "2024-01-01T00:00:00Z", none,
   1000000, 0, false⟩

/-- The originally created run, in state Running. -/
def runA : QueryRun :=
  baseRun

/-- A distinct run the service redirects to, in state Running. -/
def runB : QueryRun :=
  { baseRun with id := "run-b" }

/-- The original run again, now in state Success. -/
def runASuccess : QueryRun :=
  { baseRun with state := .QueryStateSuccess }

/-- A run that redirects `get_query_results` calls, in state Success. -/
def runC : QueryRun :=
  { baseRun with id := "run-c", state := .QueryStateSuccess }

/-- A failed run with populated error fields. -/
def failedRun : QueryRun :=
  { baseRun with
    id := "run-f"
    state := .QueryStateFailed
    error_name := some "QUERY_RUN_EXECUTION_ERROR"
    error_message := some "syntax error"
    error_data := some "line 1" }

/-- A poll oracle whose first response redirects run A to run B (both
still running) and whose second response is run A in state Success with
no redirect. -/
def redirectOncePolls : Nat → Except Unit GetQueryRunResult
  | 0 => .ok ⟨runA, some runB⟩
  | _ + 1 => .ok ⟨runASuccess, none⟩

/-- A poll oracle that always answers with a running run (never a
terminal state). -/
def foreverRunningPolls : Nat → Except Unit GetQueryRunResult :=
  fun _ => .ok ⟨runA, none⟩

/-- A poll oracle that answers Success immediately. -/
def successPolls : Nat → Except Unit GetQueryRunResult :=
  fun _ => .ok ⟨runASuccess, none⟩

/-- A poll oracle that answers Running twice, then Success. -/
def twoThenSuccessPolls : Nat → Except Unit GetQueryRunResult
  | 0 => .ok ⟨runA, none⟩
  | 1 => .ok ⟨runA, none⟩
  | _ + 2 => .ok ⟨runASuccess, none⟩

/-! ## Claims about the cache/ttl arithmetic (C2, C3, C7) -/

/-- C2 counterexample: at `max_age_minutes = 61` the submitted
`ttl_hours` is `61 / 60 = 1`, i.e. 60 minutes — strictly shorter than
the effective `max_age_minutes` of 61.  The claim that the stored-result
lifetime in minutes is never shorter than the acceptable cache age is
false. -/
theorem c2_counterexample :
    get_ttl_hours sixtyOneQuery * 60 < get_max_age_minutes sixtyOneQuery := by
  decide

/-- C2 (amended): for every query, `ttl_hours * 60` is at least the
default TTL of 60 minutes, and `ttl_hours` is at least the effective
`max_age_minutes` rounded down to whole hours
(`max_age_minutes / 60 ≤ ttl_hours`); the stored-result lifetime can
therefore fall up to 59 minutes short of the acceptable cache age. -/
theorem c2_ttl_lower_bounds (query : Query) :
    60 ≤ get_ttl_hours query * 60 ∧
    get_max_age_minutes query / 60 ≤ get_ttl_hours query := by
  have h : get_ttl_hours query =
      (if get_max_age_minutes query > 60 then get_max_age_minutes query else 60) / 60 := rfl
  rw [h]
  by_cases hm : get_max_age_minutes query > 60
  · rw [if_pos hm]; omega
  · rw [if_neg hm]; omega

/-- C3: the `ttl_hours` submitted by `run`/`create_query_run` equals
`max(effective max_age_minutes, 60) / 60` (integer division): `1`
whenever the effective `max_age_minutes` is at most 60, and
`max_age_minutes / 60` whenever it exceeds 60. -/
theorem c3_ttl_hours_formula (query : Query) :
    (run_create_params query).result_ttl_hours =
      max (get_max_age_minutes query) 60 / 60 ∧
    (get_max_age_minutes query ≤ 60 →
      (run_create_params query).result_ttl_hours = 1) ∧
    (60 < get_max_age_minutes query →
      (run_create_params query).result_ttl_hours =
        get_max_age_minutes query / 60) := by
  have h2 : (run_create_params query).result_ttl_hours = get_ttl_hours query := rfl
  have h : get_ttl_hours query =
      (if get_max_age_minutes query > 60 then get_max_age_minutes query else 60) / 60 := rfl
  rw [h2, h]
  by_cases hm : get_max_age_minutes query > 60
  · rw [if_pos hm]
    exact ⟨by omega, fun hle => by omega, fun hgt => by omega⟩
  · rw [if_neg hm]
    exact ⟨by omega, fun hle => by omega, fun hgt => by omega⟩

/-- C3 witness: at the boundary values 60 and 61 the submitted
`ttl_hours` is 1 on both sides. -/
theorem c3_ttl_hours_formula_witness :
    (run_create_params ⟨"select 1", some 60, none, none, none, none, none⟩).result_ttl_hours = 1 ∧
    (run_create_params sixtyOneQuery).result_ttl_hours =
      get_max_age_minutes sixtyOneQuery / 60 :=
  ⟨(c3_ttl_hours_formula _).2.1 (by decide),
   (c3_ttl_hours_formula sixtyOneQuery).2.2 (by decide)⟩

/-- C7: `cached == Some(false)` forces the effective `max_age_minutes`
to 0 regardless of any explicit value; otherwise it is the query's
`max_age_minutes` or the default 0. -/
theorem c7_effective_max_age (query : Query) :
    (query.cached = some false → get_max_age_minutes query = 0) ∧
    (query.cached ≠ some false →
      get_max_age_minutes query = query.max_age_minutes.getD 0) := by
  constructor <;> intro h <;> simp [get_max_age_minutes, h, MAX_AGE_MINUTES]

/-- C7 witness: with `cached = Some(false)` an explicit 42 is forced to
0; with `cached = Some(true)` the explicit 42 is kept. -/
theorem c7_effective_max_age_witness :
    get_max_age_minutes ⟨"q", some 42, some false, none, none, none, none⟩ = 0 ∧
    get_max_age_minutes ⟨"q", some 42, some true, none, none, none, none⟩ =
      (some 42).getD 0 :=
  ⟨(c7_effective_max_age _).1 rfl, (c7_effective_max_age _).2 (by decide)⟩

/-! ## C8: results are fetched against the resolved (redirected) run -/

/-- C8: `get_query_results` first calls `get_query_run` with the given
id, then issues the results request against the resolved run's id —
the redirected run when the response carries one, else the returned run
itself; in particular a redirect to run C makes the results request
carry C's id. -/
theorem c8_results_resolved (res : GetQueryRunResult) (query_run_id : String)
    (page : Option Pagination) (filters : List FilterMap) (sort_by : List SortBy) :
    get_query_results (.ok res) query_run_id page filters sort_by =
      [.getQueryRun query_run_id,
       .getQueryRunResults
         ⟨(resolve_redirect res).id, .Csv, some sort_by, some filters,
          some (page.getD ⟨1, 100000⟩)⟩] ∧
    (∀ C, res.redirected_to_query_run = some C →
      get_query_results (.ok res) query_run_id page filters sort_by =
        [.getQueryRun query_run_id,
         .getQueryRunResults
           ⟨C.id, .Csv, some sort_by, some filters,
            some (page.getD ⟨1, 100000⟩)⟩]) := by
  refine ⟨rfl, fun C hC => ?_⟩
  simp [get_query_results, resolve_redirect, hC]

/-- C8 witness: an id that redirects to `runC` produces a results
request carrying `runC`'s id, not the supplied one. -/
theorem c8_results_resolved_witness :
    get_query_results (.ok ⟨runA, some runC⟩) "run-a" none [] [] =
      [.getQueryRun "run-a",
       .getQueryRunResults ⟨runC.id, .Csv, some [], some [], some ⟨1, 100000⟩⟩] :=
  (c8_results_resolved ⟨runA, some runC⟩ "run-a" none [] []).2 runC rfl

/-! ## C9: construction-time failures -/

/-- C9 counterexample: with a header-value parser that rejects the
key, `Flipside::new` panics (the `unwrap` at flipside.rs line 48)
instead of surfacing the failure as the construction outcome. -/
theorem c9_counterexample :
    new (fun _ => none) some "bad key" none = .panicked ∧
    NewOutcome.panicked ≠ NewOutcome.err :=
  ⟨rfl, by decide⟩

/-- C9 (amended): an API key the header parser rejects makes
construction panic (not an error outcome); with an encodable key, an
unparsable base URL is surfaced as the error outcome, and a parseable
one yields the constructed client with the `x-api-key` header. -/
theorem c9_new_outcomes (parse_header_value parse_url : String → Option String)
    (api_key : String) (base_url : Option String) :
    (parse_header_value api_key = none →
      new parse_header_value parse_url api_key base_url = .panicked) ∧
    (∀ v, parse_header_value api_key = some v →
      (parse_url (base_url.getD API_BASE_URL) = none →
        new parse_header_value parse_url api_key base_url = .err) ∧
      (∀ u, parse_url (base_url.getD API_BASE_URL) = some u →
        new parse_header_value parse_url api_key base_url =
          .ok [("x-api-key", v)] u)) := by
  refine ⟨fun h => ?_, fun v hv => ⟨fun h => ?_, fun u hu => ?_⟩⟩
  · simp [new, h]
  · simp [new, hv, h]
  · simp [new, hv, hu]

/-- C9 witness: accepting parsers yield the constructed client. -/
theorem c9_new_outcomes_witness :
    new some some "key" none = .ok [("x-api-key", "key")] API_BASE_URL :=
  ((c9_new_outcomes some some "key" none).2 "key" rfl).2 API_BASE_URL rfl

/-! ## C4: terminal-error runs -/

/-- C4: a poll-loop iteration whose resolved run is in state Failed or
Cancelled returns `ExecutionError` whose name, message and data are
exactly the run's `error_name`, `error_message` and `error_data`,
identically for both states; with the fields populated the branch
completes without panic (and without further polls or sleeps). -/
theorem c4_terminal_error (polls : Nat → Except Unit GetQueryRunResult)
    (query_run_id : String)
    (retry_interval timeout fuel i retry_duration elapsed : Nat)
    (res : GetQueryRunResult) (n m d : String)
    (hpoll : polls i = .ok res)
    (hstate : (resolve_redirect res).state = .QueryStateFailed ∨
      (resolve_redirect res).state = .QueryStateCancelled)
    (hn : (resolve_redirect res).error_name = some n)
    (hm : (resolve_redirect res).error_message = some m)
    (hd : (resolve_redirect res).error_data = some d) :
    runLoop polls query_run_id retry_interval timeout (fuel + 1) i retry_duration
        elapsed =
      some (.executionError ⟨n, m, d⟩, ⟨[query_run_id], [], []⟩) := by
  rcases hstate with h | h <;> simp [runLoop, hpoll, h, hn, hm, hd]

/-- C4 witness: a Failed response with populated error fields yields
exactly those fields. -/
theorem c4_terminal_error_witness :
    runLoop (fun _ => .ok ⟨failedRun, none⟩) "run-f" 500 1000 1 0 500 0 =
      some (.executionError
        ⟨"QUERY_RUN_EXECUTION_ERROR", "syntax error", "line 1"⟩,
        ⟨["run-f"], [], []⟩) :=
  c4_terminal_error (fun _ => .ok ⟨failedRun, none⟩) "run-f" 500 1000 0 0 500 0
    ⟨failedRun, none⟩ "QUERY_RUN_EXECUTION_ERROR" "syntax error" "line 1"
    rfl (.inl rfl) rfl rfl rfl

/-! ## Poll-loop invariants -/

/-- A state unequal to all three terminal states is one of the three
non-terminal ones. -/
lemma nonTerminal_of_not_terminal (s : QueryState)
    (h1 : s ≠ .QueryStateSuccess) (h2 : s ≠ .QueryStateFailed)
    (h3 : s ≠ .QueryStateCancelled) : nonTerminalState s := by
  cases s <;> simp_all [nonTerminalState]


/-- A state that is not non-terminal is Success, Failed or Cancelled. -/
lemma terminal_cases (s : QueryState) (h : ¬ nonTerminalState s) :
    s = .QueryStateSuccess ∨ s = .QueryStateFailed ∨ s = .QueryStateCancelled := by
  cases s <;> simp_all [nonTerminalState]

/-- One loop iteration on a transport error: abort as `RpcError`. -/
lemma runLoop_step_error (polls : Nat → Except Unit GetQueryRunResult)
    (query_run_id : String) (retry_interval timeout fuel i retry_duration elapsed : Nat)
    (err : Unit) (hp : polls i = .error err) :
    runLoop polls query_run_id retry_interval timeout (fuel + 1) i retry_duration
        elapsed = some (.rpcError, ⟨[query_run_id], [], []⟩) := by
  simp [runLoop, hp]

/-- One loop iteration on a response resolving to Success: return that
run. -/
lemma runLoop_step_success (polls : Nat → Except Unit GetQueryRunResult)
    (query_run_id : String) (retry_interval timeout fuel i retry_duration elapsed : Nat)
    (res : GetQueryRunResult) (hp : polls i = .ok res)
    (hs : (resolve_redirect res).state = .QueryStateSuccess) :
    runLoop polls query_run_id retry_interval timeout (fuel + 1) i retry_duration
        elapsed = some (.ok (resolve_redirect res), ⟨[query_run_id], [], []⟩) := by
  simp [runLoop, hp, hs]

/-- One loop iteration on a response resolving to Failed or Cancelled:
return `ExecutionError` from the error fields, or panic if one is
absent; never a timeout, never an Ok. -/
lemma runLoop_step_terminal_error (polls : Nat → Except Unit GetQueryRunResult)
    (query_run_id : String) (retry_interval timeout fuel i retry_duration elapsed : Nat)
    (res : GetQueryRunResult) (hp : polls i = .ok res)
    (hs : (resolve_redirect res).state = .QueryStateFailed ∨
      (resolve_redirect res).state = .QueryStateCancelled) :
    (∃ n m d, runLoop polls query_run_id retry_interval timeout (fuel + 1) i
        retry_duration elapsed =
      some (.executionError ⟨n, m, d⟩, ⟨[query_run_id], [], []⟩)) ∨
    runLoop polls query_run_id retry_interval timeout (fuel + 1) i retry_duration
        elapsed = some (.panicked, ⟨[query_run_id], [], []⟩) := by
  rcases hs with h | h <;>
    rcases hn : (resolve_redirect res).error_name with _ | n <;>
    rcases hm : (resolve_redirect res).error_message with _ | m <;>
    rcases hd : (resolve_redirect res).error_data with _ | d <;>
    first
      | exact Or.inl ⟨n, m, d, by simp [runLoop, hp, h, hn, hm, hd]⟩
      | exact Or.inr (by simp [runLoop, hp, h, hn, hm, hd])

/-- One loop iteration on a non-terminal response: sleep, bump the
retry duration, and either time out or continue. -/
lemma runLoop_step_nonterminal (polls : Nat → Except Unit GetQueryRunResult)
    (query_run_id : String) (retry_interval timeout fuel i retry_duration elapsed : Nat)
    (res : GetQueryRunResult) (hp : polls i = .ok res)
    (hs : nonTerminalState (resolve_redirect res).state) :
    runLoop polls query_run_id retry_interval timeout (fuel + 1) i retry_duration
        elapsed =
      if elapsed + retry_duration > timeout then
        some (.timeout (elapsed + retry_duration),
          ⟨[query_run_id], [retry_duration], []⟩)
      else
        match runLoop polls query_run_id retry_interval timeout fuel (i + 1)
            (retry_duration + retry_interval) (elapsed + retry_duration) with
        | none => none
        | some (o, tr2) =>
          some (o, ⟨query_run_id :: tr2.pollIds, retry_duration :: tr2.sleeps,
            tr2.cancels⟩) := by
  rcases hs with h | h | h <;> simp [runLoop, hp, h]

/-- Invariant of every completed `runLoop` computation: no cancel call
is ever issued; every poll targets the fixed `query_run_id`; at least
one poll happens; a Timeout outcome equals the entry clock plus the
sum of the sleeps performed, strictly exceeds the timeout budget,
follows exactly one sleep per poll, and only ever follows non-terminal
responses; an Ok outcome is the resolved run of some response, in
state Success. -/
lemma runLoop_inv (polls : Nat → Except Unit GetQueryRunResult)
    (query_run_id : String) (retry_interval timeout : Nat) :
    ∀ fuel i retry_duration elapsed out tr,
      runLoop polls query_run_id retry_interval timeout fuel i retry_duration
          elapsed = some (out, tr) →
      tr.cancels = [] ∧
      (∀ x ∈ tr.pollIds, x = query_run_id) ∧
      1 ≤ tr.pollIds.length ∧
      (∀ el, out = .timeout el →
        el = elapsed + tr.sleeps.sum ∧ timeout < el ∧
        tr.pollIds.length = tr.sleeps.length ∧
        (∀ j res, j < tr.pollIds.length → polls (i + j) = .ok res →
          nonTerminalState (resolve_redirect res).state)) ∧
      (∀ r, out = .ok r →
        ∃ j res, polls j = .ok res ∧ r = resolve_redirect res ∧
          r.state = .QueryStateSuccess) := by
  intro fuel
  induction fuel with
  | zero =>
    intro i rd e out tr h
    simp [runLoop] at h
  | succ fuel ih =>
    intro i rd e out tr h
    cases heqpoll : polls i with
    | error err =>
      rw [runLoop_step_error polls query_run_id retry_interval timeout fuel i rd e
        err heqpoll] at h
      simp only [Option.some.injEq, Prod.mk.injEq] at h
      obtain ⟨rfl, rfl⟩ := h
      refine ⟨rfl, ?_, by simp, ?_, ?_⟩
      · intro x hx; simpa using hx
      · intro el hel; simp at hel
      · intro r hr; simp at hr
    | ok res =>
      by_cases hterm : nonTerminalState (resolve_redirect res).state
      · rw [runLoop_step_nonterminal polls query_run_id retry_interval timeout fuel
          i rd e res heqpoll hterm] at h
        split at h
        next htime =>
          simp only [Option.some.injEq, Prod.mk.injEq] at h
          obtain ⟨rfl, rfl⟩ := h
          refine ⟨rfl, ?_, by simp, ?_, ?_⟩
          · intro x hx; simpa using hx
          · intro el hel
            simp only [RunOutcome.timeout.injEq] at hel
            subst hel
            refine ⟨by simp, htime, by simp, ?_⟩
            intro j res2 hj hres2
            simp only [List.length_singleton, Nat.lt_one_iff] at hj
            subst hj
            rw [Nat.add_zero, heqpoll] at hres2
            injection hres2 with h3
            subst h3
            exact hterm
          · intro r hr; simp at hr
        next htime =>
          split at h
          next heqrec => exact absurd h (by simp)
          next o t2 heqrec =>
            simp only [Option.some.injEq, Prod.mk.injEq] at h
            obtain ⟨rfl, rfl⟩ := h
            obtain ⟨ihc, ihmem, ihlen, ihtimeout, ihok⟩ :=
              ih (i + 1) (rd + retry_interval) (e + rd) o t2 heqrec
            refine ⟨ihc, ?_, by simp, ?_, ihok⟩
            · intro x hx
              rcases List.mem_cons.mp hx with hx | hx
              · exact hx
              · exact ihmem x hx
            · intro el hel
              obtain ⟨hsum, hlt, hlen2, hnt⟩ := ihtimeout el hel
              refine ⟨?_, hlt, by simp [hlen2], ?_⟩
              · simp only [List.sum_cons]; omega
              · intro j res2 hj hres2
                match j with
                | 0 =>
                  rw [Nat.add_zero, heqpoll] at hres2
                  injection hres2 with h3
                  subst h3
                  exact hterm
                | k + 1 =>
                  have hidx : i + (k + 1) = (i + 1) + k := by omega
                  rw [hidx] at hres2
                  refine hnt k res2 ?_ hres2
                  simp only [List.length_cons] at hj
                  omega
      · rcases terminal_cases _ hterm with hs | hs | hs
        · rw [runLoop_step_success polls query_run_id retry_interval timeout fuel
            i rd e res heqpoll hs] at h
          simp only [Option.some.injEq, Prod.mk.injEq] at h
          obtain ⟨rfl, rfl⟩ := h
          refine ⟨rfl, ?_, by simp, ?_, ?_⟩
          · intro x hx; simpa using hx
          · intro el hel; simp at hel
          · intro r hr
            simp only [RunOutcome.ok.injEq] at hr
            subst hr
            exact ⟨i, res, heqpoll, rfl, hs⟩
        · rcases runLoop_step_terminal_error polls query_run_id retry_interval
            timeout fuel i rd e res heqpoll (Or.inl hs) with ⟨n, m, d, heq⟩ | heq <;>
          · rw [heq] at h
            simp only [Option.some.injEq, Prod.mk.injEq] at h
            obtain ⟨rfl, rfl⟩ := h
            refine ⟨rfl, ?_, by simp, ?_, ?_⟩
            · intro x hx; simpa using hx
            · intro el hel; simp at hel
            · intro r hr; simp at hr
        · rcases runLoop_step_terminal_error polls query_run_id retry_interval
            timeout fuel i rd e res heqpoll (Or.inr hs) with ⟨n, m, d, heq⟩ | heq <;>
          · rw [heq] at h
            simp only [Option.some.injEq, Prod.mk.injEq] at h
            obtain ⟨rfl, rfl⟩ := h
            refine ⟨rfl, ?_, by simp, ?_, ?_⟩
            · intro x hx; simpa using hx
            · intro el hel; simp at hel
            · intro r hr; simp at hr

/-- One loop iteration on a Failed/Cancelled response, as a single
equation (the outcome is the match on the three error fields). -/
lemma runLoop_step_terminal_error_eq (polls : Nat → Except Unit GetQueryRunResult)
    (query_run_id : String) (retry_interval timeout fuel i retry_duration elapsed : Nat)
    (res : GetQueryRunResult) (hp : polls i = .ok res)
    (hs : (resolve_redirect res).state = .QueryStateFailed ∨
      (resolve_redirect res).state = .QueryStateCancelled) :
    runLoop polls query_run_id retry_interval timeout (fuel + 1) i retry_duration
        elapsed =
      some (match (resolve_redirect res).error_name,
              (resolve_redirect res).error_message,
              (resolve_redirect res).error_data with
            | some n, some m, some d => .executionError ⟨n, m, d⟩
            | _, _, _ => .panicked,
        ⟨[query_run_id], [], []⟩) := by
  rcases hs with h | h <;>
    rcases hn : (resolve_redirect res).error_name with _ | n <;>
    rcases hm : (resolve_redirect res).error_message with _ | m <;>
    rcases hd : (resolve_redirect res).error_data with _ | d <;>
    simp [runLoop, hp, h, hn, hm, hd]

/-- A completed `runLoop` result is stable under extra fuel. -/
lemma runLoop_fuel_mono (polls : Nat → Except Unit GetQueryRunResult)
    (query_run_id : String) (retry_interval timeout : Nat) :
    ∀ fuel i retry_duration elapsed x,
      runLoop polls query_run_id retry_interval timeout fuel i retry_duration
          elapsed = some x →
      ∀ fuel2, fuel ≤ fuel2 →
        runLoop polls query_run_id retry_interval timeout fuel2 i retry_duration
          elapsed = some x := by
  intro fuel
  induction fuel with
  | zero =>
    intro i rd e x h
    simp [runLoop] at h
  | succ fuel ih =>
    intro i rd e x h fuel2 hle
    obtain ⟨fuel3, rfl⟩ : ∃ f3, fuel2 = f3 + 1 := ⟨fuel2 - 1, by omega⟩
    have hle3 : fuel ≤ fuel3 := by omega
    cases heqpoll : polls i with
    | error err =>
      rw [runLoop_step_error polls query_run_id retry_interval timeout fuel i rd e
        err heqpoll] at h
      rw [runLoop_step_error polls query_run_id retry_interval timeout fuel3 i rd e
        err heqpoll]
      exact h
    | ok res =>
      by_cases hterm : nonTerminalState (resolve_redirect res).state
      · rw [runLoop_step_nonterminal polls query_run_id retry_interval timeout fuel
          i rd e res heqpoll hterm] at h
        rw [runLoop_step_nonterminal polls query_run_id retry_interval timeout fuel3
          i rd e res heqpoll hterm]
        by_cases htime : e + rd > timeout
        · rw [if_pos htime] at h ⊢
          exact h
        · rw [if_neg htime] at h ⊢
          cases heqrec : runLoop polls query_run_id retry_interval timeout fuel
              (i + 1) (rd + retry_interval) (e + rd) with
          | none =>
            rw [heqrec] at h
            exact absurd h (by simp)
          | some y =>
            obtain ⟨o, t2⟩ := y
            rw [heqrec] at h
            rw [ih (i + 1) (rd + retry_interval) (e + rd) (o, t2) heqrec fuel3 hle3]
            exact h
      · rcases terminal_cases _ hterm with hs | hs | hs
        · rw [runLoop_step_success polls query_run_id retry_interval timeout fuel
            i rd e res heqpoll hs] at h
          rw [runLoop_step_success polls query_run_id retry_interval timeout fuel3
            i rd e res heqpoll hs]
          exact h
        · rw [runLoop_step_terminal_error_eq polls query_run_id retry_interval
            timeout fuel i rd e res heqpoll (Or.inl hs)] at h
          rw [runLoop_step_terminal_error_eq polls query_run_id retry_interval
            timeout fuel3 i rd e res heqpoll (Or.inl hs)]
          exact h
        · rw [runLoop_step_terminal_error_eq polls query_run_id retry_interval
            timeout fuel i rd e res heqpoll (Or.inr hs)] at h
          rw [runLoop_step_terminal_error_eq polls query_run_id retry_interval
            timeout fuel3 i rd e res heqpoll (Or.inr hs)]
          exact h

/-- Against a transport that only ever returns non-terminal states, the
poll loop reaches a Timeout outcome once the fuel covers the budget
(each iteration advances the clock by at least one retry interval). -/
lemma runLoop_timeout_exists (polls : Nat → Except Unit GetQueryRunResult)
    (query_run_id : String) (retry_interval timeout : Nat)
    (hpolls : ∀ j, ∃ r, polls j = .ok r ∧
      nonTerminalState (resolve_redirect r).state)
    (hri : 1 ≤ retry_interval) :
    ∀ fuel i retry_duration elapsed,
      retry_interval ≤ retry_duration → elapsed ≤ timeout →
      timeout + 1 ≤ fuel + elapsed →
      ∃ el tr, runLoop polls query_run_id retry_interval timeout fuel i
        retry_duration elapsed = some (.timeout el, tr) := by
  intro fuel
  induction fuel with
  | zero =>
    intro i rd e h1 h2 h3
    exfalso
    omega
  | succ fuel ih =>
    intro i rd e h1 h2 h3
    obtain ⟨res, hp, hnt⟩ := hpolls i
    rw [runLoop_step_nonterminal polls query_run_id retry_interval timeout fuel
      i rd e res hp hnt]
    by_cases htime : e + rd > timeout
    · rw [if_pos htime]
      exact ⟨e + rd, ⟨[query_run_id], [rd], []⟩, rfl⟩
    · rw [if_neg htime]
      obtain ⟨el, tr, heq⟩ :=
        ih (i + 1) (rd + retry_interval) (e + rd) (by omega) (by omega) (by omega)
      rw [heq]
      exact ⟨el, ⟨query_run_id :: tr.pollIds, rd :: tr.sleeps, tr.cancels⟩, rfl⟩

/-! ## C5: timeout behaviour -/

/-- C5: against a transport that never returns a terminal state (and a
positive retry interval), `run()` returns Timeout; the carried elapsed
duration is the wall-clock time accumulated since the run began (the
sum of the sleeps, network time being zero in this model), strictly
exceeds the effective timeout, follows at least one sleep with the
check made after each sleep (one sleep per poll), and no cancel call
is ever issued. -/
theorem c5_timeout (create : CreateQueryRunParams → Except Unit QueryRun)
    (polls : Nat → Except Unit GetQueryRunResult) (query : Query)
    (query_run : QueryRun) (fuel : Nat)
    (hc : create (run_create_params query) = .ok query_run)
    (hpolls : ∀ j, ∃ r, polls j = .ok r ∧
      nonTerminalState (resolve_redirect r).state)
    (hri : 1 ≤ get_retry_interval_seconds query)
    (hfuel : get_timeout query + 1 ≤ fuel) :
    ∃ el tr, run create polls query fuel = some (.timeout el, tr) ∧
      get_timeout query < el ∧ el = tr.sleeps.sum ∧ tr.cancels = [] ∧
      1 ≤ tr.sleeps.length ∧ tr.pollIds.length = tr.sleeps.length := by
  obtain ⟨el, tr, heq⟩ := runLoop_timeout_exists polls query_run.id
    (get_retry_interval_seconds query) (get_timeout query) hpolls hri fuel 0
    (get_retry_interval_seconds query) 0 le_rfl (by omega) (by omega)
  have hrun : run create polls query fuel = some (.timeout el, tr) := by
    simp only [run, hc]
    exact heq
  obtain ⟨hcancel, _, hlen1, htimeout, _⟩ :=
    runLoop_inv polls query_run.id (get_retry_interval_seconds query)
      (get_timeout query) fuel 0 (get_retry_interval_seconds query) 0
      (.timeout el) tr heq
  obtain ⟨hsum, hlt, hlen, _⟩ := htimeout el rfl
  exact ⟨el, tr, hrun, hlt, by omega, hcancel, by omega, hlen⟩

/-- C5 witness: a 1 ms interval, 1 ms timeout query against the
always-running transport times out. -/
theorem c5_timeout_witness :
    ∃ el tr, run (fun _ => .ok runA) foreverRunningPolls tinyTimeoutQuery 2 =
        some (.timeout el, tr) ∧
      get_timeout tinyTimeoutQuery < el ∧ el = tr.sleeps.sum ∧ tr.cancels = [] ∧
      1 ≤ tr.sleeps.length ∧ tr.pollIds.length = tr.sleeps.length :=
  c5_timeout (fun _ => .ok runA) foreverRunningPolls tinyTimeoutQuery runA 2 rfl
    (fun _ => ⟨⟨runA, none⟩, rfl, Or.inr (Or.inl rfl)⟩) (by decide) (by decide)

/-! ## C1: redirect handling in the poll loop -/

/-- C1 counterexample: the first response redirects the created run A
to run B, but the second poll is still issued with A's id (the poll
target never switches to B), and the final run returned on Success is
A, not B. -/
theorem c1_counterexample :
    redirectOncePolls 0 = .ok ⟨runA, some runB⟩ ∧
    run (fun _ => .ok runA) redirectOncePolls plainQuery 2 =
      some (.ok runASuccess, ⟨["run-a", "run-a"], [500], []⟩) ∧
    runASuccess.id = "run-a" ∧ runB.id = "run-b" ∧ ("run-a" : String) ≠ "run-b" :=
  ⟨rfl, rfl, rfl, rfl, by decide⟩

/-- C1 (amended): a redirect applies only to the response that carries
it: every `get_query_run` call of a `run()` invocation is issued with
the originally created run's id (the poll target never changes), and
the run returned on Success is the resolved run — redirected if
present, else primary — of a response, in state Success. -/
theorem c1_poll_target_fixed (create : CreateQueryRunParams → Except Unit QueryRun)
    (polls : Nat → Except Unit GetQueryRunResult) (query : Query)
    (query_run : QueryRun) (fuel : Nat) (out : RunOutcome) (tr : RunTrace)
    (hc : create (run_create_params query) = .ok query_run)
    (hrun : run create polls query fuel = some (out, tr)) :
    (∀ x ∈ tr.pollIds, x = query_run.id) ∧
    (∀ r, out = .ok r →
      ∃ j res, polls j = .ok res ∧ r = resolve_redirect res ∧
        r.state = .QueryStateSuccess) := by
  have hloop : runLoop polls query_run.id (get_retry_interval_seconds query)
      (get_timeout query) fuel 0 (get_retry_interval_seconds query) 0 =
      some (out, tr) := by
    simpa only [run, hc] using hrun
  obtain ⟨_, hmem, _, _, hok⟩ :=
    runLoop_inv polls query_run.id (get_retry_interval_seconds query)
      (get_timeout query) fuel 0 (get_retry_interval_seconds query) 0 out tr hloop
  exact ⟨hmem, hok⟩

/-- C1 amended-claim witness: the redirect-once scenario satisfies the
amended statement. -/
theorem c1_poll_target_fixed_witness :
    (∀ x ∈ (⟨["run-a", "run-a"], [500], []⟩ : RunTrace).pollIds, x = runA.id) ∧
    (∀ r, RunOutcome.ok runASuccess = .ok r →
      ∃ j res, redirectOncePolls j = .ok res ∧ r = resolve_redirect res ∧
        r.state = .QueryStateSuccess) :=
  c1_poll_target_fixed (fun _ => .ok runA) redirectOncePolls plainQuery runA 2
    (.ok runASuccess) ⟨["run-a", "run-a"], [500], []⟩ rfl rfl

/-! ## C10: terminal states short-circuit the sleep and timeout check -/

/-- C10: a first poll that resolves to a terminal state makes `run()`
return with no sleep performed and an outcome that is not Timeout (the
timeout check never fires, whatever the timeout, including zero); and
every Timeout outcome is preceded by at least one poll and one sleep,
with every polled response non-terminal. -/
theorem c10_terminal_short_circuit (create : CreateQueryRunParams → Except Unit QueryRun)
    (polls : Nat → Except Unit GetQueryRunResult) (query : Query)
    (query_run : QueryRun) (fuel : Nat) (out : RunOutcome) (tr : RunTrace)
    (hc : create (run_create_params query) = .ok query_run)
    (hrun : run create polls query fuel = some (out, tr)) :
    (∀ res, polls 0 = .ok res → ¬ nonTerminalState (resolve_redirect res).state →
      tr.sleeps = [] ∧ tr.pollIds = [query_run.id] ∧ ∀ el, out ≠ .timeout el) ∧
    (∀ el, out = .timeout el →
      1 ≤ tr.pollIds.length ∧ 1 ≤ tr.sleeps.length ∧
      (∀ j res, j < tr.pollIds.length → polls j = .ok res →
        nonTerminalState (resolve_redirect res).state)) := by
  have hloop : runLoop polls query_run.id (get_retry_interval_seconds query)
      (get_timeout query) fuel 0 (get_retry_interval_seconds query) 0 =
      some (out, tr) := by
    simpa only [run, hc] using hrun
  constructor
  · intro res hp hterm
    cases fuel with
    | zero => simp [runLoop] at hloop
    | succ f =>
      rcases terminal_cases _ hterm with hs | hs | hs
      · rw [runLoop_step_success polls query_run.id (get_retry_interval_seconds query)
          (get_timeout query) f 0 (get_retry_interval_seconds query) 0 res hp hs] at hloop
        simp only [Option.some.injEq, Prod.mk.injEq] at hloop
        obtain ⟨rfl, rfl⟩ := hloop
        exact ⟨rfl, rfl, fun el hel => by simp at hel⟩
      · rw [runLoop_step_terminal_error_eq polls query_run.id
          (get_retry_interval_seconds query) (get_timeout query) f 0
          (get_retry_interval_seconds query) 0 res hp (Or.inl hs)] at hloop
        simp only [Option.some.injEq, Prod.mk.injEq] at hloop
        obtain ⟨rfl, rfl⟩ := hloop
        refine ⟨rfl, rfl, fun el hel => ?_⟩
        rcases hn : (resolve_redirect res).error_name with _ | n <;>
          rcases hm : (resolve_redirect res).error_message with _ | m <;>
          rcases hd : (resolve_redirect res).error_data with _ | d <;>
          simp [hn, hm, hd] at hel
      · rw [runLoop_step_terminal_error_eq polls query_run.id
          (get_retry_interval_seconds query) (get_timeout query) f 0
          (get_retry_interval_seconds query) 0 res hp (Or.inr hs)] at hloop
        simp only [Option.some.injEq, Prod.mk.injEq] at hloop
        obtain ⟨rfl, rfl⟩ := hloop
        refine ⟨rfl, rfl, fun el hel => ?_⟩
        rcases hn : (resolve_redirect res).error_name with _ | n <;>
          rcases hm : (resolve_redirect res).error_message with _ | m <;>
          rcases hd : (resolve_redirect res).error_data with _ | d <;>
          simp [hn, hm, hd] at hel
  · intro el hel
    obtain ⟨_, _, hlen1, htimeout, _⟩ :=
      runLoop_inv polls query_run.id (get_retry_interval_seconds query)
        (get_timeout query) fuel 0 (get_retry_interval_seconds query) 0 out tr hloop
    obtain ⟨_, _, hleneq, hnt⟩ := htimeout el hel
    refine ⟨hlen1, by omega, ?_⟩
    intro j res hj hres
    refine hnt j res hj ?_
    rw [Nat.zero_add]
    exact hres

/-- C10 witness: an immediately successful run performs no sleep and
is not a timeout; applied through the theorem at a concrete input. -/
theorem c10_terminal_short_circuit_witness :
    (⟨["run-a"], [], []⟩ : RunTrace).sleeps = [] ∧
    (⟨["run-a"], [], []⟩ : RunTrace).pollIds = [runA.id] ∧
    ∀ el, RunOutcome.ok runASuccess ≠ .timeout el :=
  (c10_terminal_short_circuit (fun _ => .ok runA) successPolls plainQuery runA 1
      (.ok runASuccess) ⟨["run-a"], [], []⟩ rfl rfl).1
    ⟨runASuccess, none⟩ rfl (by decide)

/-! ## C6: poll count and linear backoff -/

/-- Unfolding of the iteration sleep sum. -/
lemma partialSleepSum_succ (interval k : Nat) :
    partialSleepSum interval (k + 1) =
      partialSleepSum interval k + (k + 1) * interval := by
  unfold partialSleepSum
  rw [List.range_succ, List.map_append, List.sum_append]
  simp

/-- The iteration sleep sum is monotone. -/
lemma partialSleepSum_mono (interval a b : Nat) (h : a ≤ b) :
    partialSleepSum interval a ≤ partialSleepSum interval b := by
  induction h with
  | refl => exact le_rfl
  | step h2 ih =>
    refine le_trans ih ?_
    rw [partialSleepSum_succ]
    omega

/-- Mapping pointwise-equal functions gives equal lists. -/
lemma map_ext_on {α β : Type} (l : List α) (f g : α → β) (h : ∀ a, f a = g a) :
    l.map f = l.map g := by
  induction l with
  | nil => rfl
  | cons a l ih => simp [h, ih]

/-- The poll loop against `m` further non-terminal responses followed
by a Success response at index `N`: starting at iteration `k = N - m`
with the loop state that iteration has (retry duration
`(k+1)*interval`, clock `partialSleepSum interval k`), it returns the
resolved Success run after polling `m + 1` more times with sleeps
`(k+1)*interval, ..., N*interval`. -/
lemma runLoop_success_aux (polls : Nat → Except Unit GetQueryRunResult)
    (query_run_id : String) (interval timeout N : Nat) (resN : GetQueryRunResult)
    (hnt : ∀ j, j < N → ∃ r, polls j = .ok r ∧
      nonTerminalState (resolve_redirect r).state)
    (hsN : polls N = .ok resN)
    (hS : (resolve_redirect resN).state = .QueryStateSuccess)
    (hT : partialSleepSum interval N ≤ timeout) :
    ∀ m k, k + m = N →
      runLoop polls query_run_id interval timeout (m + 1) k ((k + 1) * interval)
          (partialSleepSum interval k) =
        some (.ok (resolve_redirect resN),
          ⟨List.replicate (m + 1) query_run_id,
           (List.range m).map (fun j => (k + j + 1) * interval), []⟩) := by
  intro m
  induction m with
  | zero =>
    intro k hk
    have hk2 : k = N := by omega
    subst hk2
    rw [runLoop_step_success polls query_run_id interval timeout 0 k
      ((k + 1) * interval) (partialSleepSum interval k) resN hsN hS]
    simp
  | succ m ihm =>
    intro k hk
    obtain ⟨res, hp, hnt2⟩ := hnt k (by omega)
    rw [runLoop_step_nonterminal polls query_run_id interval timeout (m + 1) k
      ((k + 1) * interval) (partialSleepSum interval k) res hp hnt2]
    have hstep : partialSleepSum interval k + (k + 1) * interval =
        partialSleepSum interval (k + 1) := (partialSleepSum_succ interval k).symm
    have hle : ¬ (partialSleepSum interval k + (k + 1) * interval > timeout) := by
      have h1 : partialSleepSum interval (k + 1) ≤ partialSleepSum interval N :=
        partialSleepSum_mono interval (k + 1) N (by omega)
      omega
    rw [if_neg hle, hstep]
    have harg2 : (k + 1) * interval + interval = (k + 1 + 1) * interval := by ring
    rw [harg2, ihm (k + 1) (by omega)]
    have hrep : query_run_id :: List.replicate (m + 1) query_run_id =
        List.replicate (m + 1 + 1) query_run_id :=
      (List.replicate_succ query_run_id (m + 1)).symm
    have hsleeps : (k + 1) * interval ::
        (List.range m).map (fun j => (k + 1 + j + 1) * interval) =
        (List.range (m + 1)).map (fun j => (k + j + 1) * interval) := by
      simp only [List.range_succ_eq_map, List.map_cons, List.map_map, Nat.add_zero]
      exact congrArg _ (map_ext_on (List.range m) _ _ (fun a => by
        simp only [Function.comp_apply, Nat.succ_eq_add_one]
        ring))
    rw [← hrep, ← hsleeps]

/-- C6: with `N` non-terminal responses followed by Success, and a
timeout large enough not to fire, `run()` performs exactly `N + 1`
`get_query_run` calls and sleeps exactly `N` times with durations
`interval, 2*interval, ..., N*interval` — a strictly increasing
arithmetic sequence starting at the configured retry interval and
increasing by one retry-interval increment after every poll. -/
theorem c6_linear_backoff (create : CreateQueryRunParams → Except Unit QueryRun)
    (polls : Nat → Except Unit GetQueryRunResult) (query : Query)
    (query_run : QueryRun) (N fuel : Nat) (resN : GetQueryRunResult)
    (hc : create (run_create_params query) = .ok query_run)
    (hnt : ∀ j, j < N → ∃ r, polls j = .ok r ∧
      nonTerminalState (resolve_redirect r).state)
    (hsN : polls N = .ok resN)
    (hS : (resolve_redirect resN).state = .QueryStateSuccess)
    (hT : partialSleepSum (get_retry_interval_seconds query) N ≤ get_timeout query)
    (hfuel : N + 1 ≤ fuel)
    (hpos : 0 < get_retry_interval_seconds query) :
    run create polls query fuel =
      some (.ok (resolve_redirect resN),
        ⟨List.replicate (N + 1) query_run.id,
         (List.range N).map (fun j => (j + 1) * get_retry_interval_seconds query),
         []⟩) ∧
    (List.replicate (N + 1) query_run.id).length = N + 1 ∧
    ((List.range N).map
      (fun j => (j + 1) * get_retry_interval_seconds query)).length = N ∧
    List.Pairwise (· < ·)
      ((List.range N).map (fun j => (j + 1) * get_retry_interval_seconds query)) := by
  have haux := runLoop_success_aux polls query_run.id
    (get_retry_interval_seconds query) (get_timeout query) N resN hnt hsN hS hT
    N 0 (by omega)
  have h0 : (0 + 1) * get_retry_interval_seconds query =
      get_retry_interval_seconds query := by ring
  have h00 : partialSleepSum (get_retry_interval_seconds query) 0 = 0 := rfl
  rw [h0, h00] at haux
  have hmap : (List.range N).map
      (fun j => (0 + j + 1) * get_retry_interval_seconds query) =
      (List.range N).map (fun j => (j + 1) * get_retry_interval_seconds query) :=
    map_ext_on _ _ _ (fun a => by ring)
  rw [hmap] at haux
  have hmono := runLoop_fuel_mono polls query_run.id
    (get_retry_interval_seconds query) (get_timeout query) (N + 1) 0
    (get_retry_interval_seconds query) 0 _ haux fuel hfuel
  refine ⟨?_, by simp, by simp, ?_⟩
  · simp only [run, hc]
    exact hmono
  · refine List.Pairwise.map _ ?_ (List.pairwise_lt_range N)
    intro a b hab
    exact mul_lt_mul_of_pos_right (by omega) hpos

/-- C6 witness: two Running responses then Success, with the default
500 ms interval: three polls, sleeps 500 and 1000. -/
theorem c6_linear_backoff_witness :
    run (fun _ => .ok runA) twoThenSuccessPolls plainQuery 3 =
      some (.ok (resolve_redirect ⟨runASuccess, none⟩),
        ⟨List.replicate (2 + 1) runA.id,
         (List.range 2).map
           (fun j => (j + 1) * get_retry_interval_seconds plainQuery),
         []⟩) ∧
    (List.replicate (2 + 1) runA.id).length = 2 + 1 ∧
    ((List.range 2).map
      (fun j => (j + 1) * get_retry_interval_seconds plainQuery)).length = 2 ∧
    List.Pairwise (· < ·)
      ((List.range 2).map
        (fun j => (j + 1) * get_retry_interval_seconds plainQuery)) :=
  c6_linear_backoff (fun _ => .ok runA) twoThenSuccessPolls plainQuery runA 2 3
    ⟨runASuccess, none⟩ rfl
    (fun j hj => by
      interval_cases j <;> exact ⟨⟨runA, none⟩, rfl, Or.inr (Or.inl rfl)⟩)
    rfl rfl (by decide) (by decide) (by decide)
